import Mathlib

/-!
Verification of the sms-gateway core against its specification.

The Go source is shallowly embedded: pure functions become Lean functions,
database/HTTP effects become explicit state passing, machine integers become
Int (Go int), and the provider network call becomes an explicit
Except-valued argument (transport error or HTTP-level completion).
-/

namespace SmsGateway

/-! ## Phone normalizer (utils/phone.go) -/

/-- One character survives the cleaning regexp ReplaceAllString with
pattern matching every char that is not a digit and not a plus sign. -/
def isPhoneChar (c : Char) : Bool := c.isDigit || c == '+'

/-- strings.HasPrefix t "256" specialised to char lists. -/
def has256 : List Char → Bool
  | '2' :: '5' :: '6' :: _ => true
  | _ => false

/-- FormatPhone from utils/phone.go, on the character list of the input:
remove every character that is neither a digit nor a plus; if the result
does not start with a plus, drop leading zeros, prepend the country code
256 unless already present, and prepend a plus. -/
def formatPhoneList (l : List Char) : List Char :=
  if (l.filter isPhoneChar).head? = some '+' then
    l.filter isPhoneChar
  else if has256 ((l.filter isPhoneChar).dropWhile (fun c => c == '0')) then
    '+' :: (l.filter isPhoneChar).dropWhile (fun c => c == '0')
  else
    '+' :: '2' :: '5' :: '6' :: (l.filter isPhoneChar).dropWhile (fun c => c == '0')

/-- FormatPhone from utils/phone.go. -/
def FormatPhone (phone : String) : String :=
  String.mk (formatPhoneList phone.toList)

/-- ValidatePhone from utils/phone.go: format, then require between 10 and
15 digit characters in the result. -/
def ValidatePhone (phone : String) : Bool :=
  let digits := (formatPhoneList phone.toList).filter Char.isDigit
  10 ≤ digits.length && digits.length ≤ 15

/-! Basic facts about the normalizer. -/

theorem mem_dropWhile_mem {p : Char → Bool} {c : Char} :
    ∀ {l : List Char}, c ∈ l.dropWhile p → c ∈ l := by
  intro l h
  induction l with
  | nil => simp at h
  | cons a t ih =>
    by_cases hp : p a
    · rw [List.dropWhile_cons_of_pos hp] at h
      exact List.mem_cons_of_mem a (ih h)
    · rw [List.dropWhile_cons_of_neg hp] at h
      exact h

theorem mem_formatPhoneList {c : Char} {l : List Char}
    (h : c ∈ formatPhoneList l) : isPhoneChar c = true := by
  unfold formatPhoneList at h
  split at h
  · exact (List.mem_filter.mp h).2
  · split at h
    · rcases List.mem_cons.mp h with h1 | h2
      · subst h1; decide
      · exact (List.mem_filter.mp (mem_dropWhile_mem h2)).2
    · rcases List.mem_cons.mp h with h1 | h2
      · subst h1; decide
      rcases List.mem_cons.mp h2 with h1 | h2
      · subst h1; decide
      rcases List.mem_cons.mp h2 with h1 | h2
      · subst h1; decide
      rcases List.mem_cons.mp h2 with h1 | h2
      · subst h1; decide
      · exact (List.mem_filter.mp (mem_dropWhile_mem h2)).2

theorem filter_formatPhoneList (l : List Char) :
    (formatPhoneList l).filter isPhoneChar = formatPhoneList l :=
  List.filter_eq_self.mpr (fun _ hc => mem_formatPhoneList hc)

theorem head_formatPhoneList (l : List Char) :
    (formatPhoneList l).head? = some '+' := by
  unfold formatPhoneList
  split
  · assumption
  · split <;> rfl

theorem formatPhoneList_fixed {m : List Char}
    (h1 : m.filter isPhoneChar = m) (h2 : m.head? = some '+') :
    formatPhoneList m = m := by
  unfold formatPhoneList
  rw [h1, if_pos h2]

theorem formatPhoneList_idem (l : List Char) :
    formatPhoneList (formatPhoneList l) = formatPhoneList l :=
  formatPhoneList_fixed (filter_formatPhoneList l) (head_formatPhoneList l)

/-! ## The normalizer the claim describes, and the amended one -/

/-- The normalizer exactly as claim C3 words it: keep digits and a LEADING
plus only; when the cleaned form has no leading plus, strip leading zeros,
unconditionally prepend the country code 256, then prepend a plus. -/
def claimedNormalizeList (l : List Char) : List Char :=
  let cleaned :=
    match l with
    | '+' :: rest => '+' :: rest.filter Char.isDigit
    | other => other.filter Char.isDigit
  if cleaned.head? = some '+' then cleaned
  else '+' :: '2' :: '5' :: '6' :: cleaned.dropWhile (fun c => c == '0')

/-- String form of the claimed normalizer. -/
def claimedNormalize (s : String) : String :=
  String.mk (claimedNormalizeList s.toList)

/-- Character filter of the cleaning step, written as plain recursion. -/
def keepPhoneChars : List Char → List Char
  | [] => []
  | c :: rest => if c.isDigit || c == '+' then c :: keepPhoneChars rest
                 else keepPhoneChars rest

/-- Leading-zero stripping, written as plain recursion. -/
def stripZeros : List Char → List Char
  | [] => []
  | c :: rest => if c = '0' then stripZeros rest else c :: rest

/-- The normalizer as amended: keep every digit and every plus sign (not
just a leading one); when the cleaned form has no leading plus, strip
leading zeros, prepend 256 only when the result does not already start
with 256, then prepend a plus. -/
def amendedNormalizeList (l : List Char) : List Char :=
  let cleaned := keepPhoneChars l
  if cleaned.head? = some '+' then cleaned
  else
    let t := stripZeros cleaned
    '+' :: (if has256 t then t else '2' :: '5' :: '6' :: t)

/-- String form of the amended normalizer. -/
def amendedNormalize (s : String) : String :=
  String.mk (amendedNormalizeList s.toList)

theorem keepPhoneChars_eq_filter (l : List Char) :
    keepPhoneChars l = l.filter isPhoneChar := by
  induction l with
  | nil => rfl
  | cons c rest ih =>
    by_cases h : isPhoneChar c = true
    · rw [List.filter_cons_of_pos h]
      unfold keepPhoneChars
      rw [if_pos (by simpa [isPhoneChar] using h), ih]
    · rw [List.filter_cons_of_neg (by simpa using h)]
      unfold keepPhoneChars
      rw [if_neg (by simpa [isPhoneChar] using h), ih]

theorem stripZeros_eq_dropWhile (l : List Char) :
    stripZeros l = l.dropWhile (fun c => c == '0') := by
  induction l with
  | nil => rfl
  | cons c rest ih =>
    by_cases h : c = '0'
    · subst h
      rw [List.dropWhile_cons_of_pos (by simp)]
      unfold stripZeros
      rw [if_pos rfl, ih]
    · rw [List.dropWhile_cons_of_neg (by simpa using h)]
      unfold stripZeros
      rw [if_neg h]

theorem amendedNormalizeList_eq (l : List Char) :
    amendedNormalizeList l = formatPhoneList l := by
  simp only [amendedNormalizeList, formatPhoneList, keepPhoneChars_eq_filter,
    stripZeros_eq_dropWhile]
  split
  · rfl
  · split <;> rfl

/-- Claim C9: FormatPhone is idempotent on every input string, so the
validity verdict of an already-normalized number is stable under
re-normalization. -/
theorem claim_C9_normalize_idempotent (n : String) :
    FormatPhone (FormatPhone n) = FormatPhone n ∧
    ValidatePhone (FormatPhone (FormatPhone n)) = ValidatePhone (FormatPhone n) := by
  have h : FormatPhone (FormatPhone n) = FormatPhone n := by
    show String.mk (formatPhoneList (String.mk (formatPhoneList n.toList)).toList)
        = String.mk (formatPhoneList n.toList)
    exact congrArg String.mk (formatPhoneList_idem n.toList)
  exact ⟨h, congrArg ValidatePhone h⟩

/-- Claim C9 witness: idempotence applied at the concrete raw number
0701234567. -/
theorem claim_C9_witness :
    FormatPhone (FormatPhone "0701234567") = FormatPhone "0701234567" ∧
    ValidatePhone (FormatPhone (FormatPhone "0701234567"))
      = ValidatePhone (FormatPhone "0701234567") :=
  claim_C9_normalize_idempotent "0701234567"

/-- Claim C3 counterexample: on the raw string 256701234567 (local form
already carrying the country code, no leading zero) the code does NOT
prepend 256 as the claim states, while the claimed algorithm does:
the two outputs differ. -/
theorem claim_C3_counterexample :
    FormatPhone "256701234567" = "+256701234567" ∧
    claimedNormalize "256701234567" = "+256256701234567" ∧
    FormatPhone "256701234567" ≠ claimedNormalize "256701234567" := by
  refine ⟨rfl, rfl, ?_⟩
  decide

/-- Claim C3 as amended: FormatPhone keeps every digit and every plus sign
(not only a leading plus); when the cleaned form has no leading plus it
strips leading zeros, prepends 256 only when the result does not already
start with 256, then prepends a plus; in particular
FormatPhone 0701234567 = +256701234567 and +256701234567 is unchanged. -/
theorem claim_C3_amended_normalize :
    (∀ s : String, FormatPhone s = amendedNormalize s) ∧
    FormatPhone "0701234567" = "+256701234567" ∧
    FormatPhone "+256701234567" = "+256701234567" :=
  ⟨fun s => (congrArg String.mk (amendedNormalizeList_eq s.toList)).symm, rfl, rfl⟩

/-! ## Data model (models package) -/

/-- APIClient row; ids are abstracted to Nat, timestamps to Int, Go int
counters to Int.  The apiSecret field holds the stored bcrypt hash. -/
structure APIClient where
  id : Nat
  name : String
  email : String
  apiKey : String
  apiSecret : String
  isActive : Bool
  rateLimit : Int
  dailyLimit : Int
  monthlyLimit : Int
  dailyUsage : Int
  monthlyUsage : Int
  lastReset : Int
deriving Repr, DecidableEq

/-- SMSRequest payload. -/
structure SMSRequest where
  number : String
  message : String
  senderID : String
  priority : String
deriving Repr, DecidableEq

/-- SMSProviderResponse from service/sms.go. -/
structure SMSProviderResponse where
  status : String
  message : String
deriving Repr, DecidableEq

/-- SMSLog row (request-metadata columns ip/user-agent omitted: no claim
touches them). -/
structure SMSLog where
  clientID : Nat
  recipient : String
  message : String
  senderID : String
  priority : String
  status : String
  providerStatus : String
  providerMessage : String
  error : String
deriving Repr, DecidableEq

/-- The JSON error/success envelope written by middleware and handlers,
together with the HTTP status code it is sent with. -/
structure AuthResponse where
  httpStatus : Nat
  success : Bool
  message : String
  error : String
deriving Repr, DecidableEq

/-! ## Authenticator (middleware/auth.go) -/

/-- Result of the APIKeyAuth middleware: either an error response written
with c.Abort, or the client stored into the request context. -/
inductive AuthResult where
  | denied (r : AuthResponse)
  | ok (c : APIClient)
deriving Repr, DecidableEq

/-- database.DB.Where("api_key = ?", apiKey).First: first row whose
api_key column equals the presented key. -/
def findByAPIKey (store : List APIClient) (apiKey : String) : Option APIClient :=
  store.find? (fun c => c.apiKey == apiKey)

/-- APIKeyAuth from middleware/auth.go.  bcrypt.CompareHashAndPassword is
abstracted as the oracle verify (true when the hash matches the presented
secret); everything else follows the Go branch structure. -/
def apiKeyAuth (store : List APIClient) (verify : String → String → Bool)
    (apiKey apiSecret : String) : AuthResult :=
  if apiKey = "" ∨ apiSecret = "" then
    .denied ⟨401, false, "Missing API credentials",
             "X-API-Key and X-API-Secret headers are required"⟩
  else
    match findByAPIKey store apiKey with
    | none =>
        .denied ⟨401, false, "Invalid API credentials", "API key not found"⟩
    | some client =>
        if verify client.apiSecret apiSecret = false then
          .denied ⟨401, false, "Invalid API credentials", "API secret mismatch"⟩
        else if client.isActive = false then
          .denied ⟨403, false, "API client is inactive",
                   "Your API access has been suspended"⟩
        else if client.dailyUsage ≥ client.dailyLimit then
          .denied ⟨429, false, "Daily limit exceeded",
                   "You have reached your daily SMS limit"⟩
        else if client.monthlyUsage ≥ client.monthlyLimit then
          .denied ⟨429, false, "Monthly limit exceeded",
                   "You have reached your monthly SMS limit"⟩
        else .ok client

/-- A sample client row used in concrete instantiations. -/
def sampleClient : APIClient :=
  { id := 1, name := "My App", email := "myapp@example.com",
    apiKey := "key1", apiSecret := "hash1", isActive := true,
    rateLimit := 100, dailyLimit := 10000, monthlyLimit := 300000,
    dailyUsage := 0, monthlyUsage := 0, lastReset := 0 }

/-- Claim C1 counterexample: with a non-empty key and secret, the response
for an existing key whose secret fails verification and the response for an
unknown key share the status code and message but carry DIFFERENT error
fields, so the two bodies are distinguishable. -/
theorem claim_C1_counterexample :
    apiKeyAuth [sampleClient] (fun _ _ => false) "key1" "s"
      = .denied ⟨401, false, "Invalid API credentials", "API secret mismatch"⟩ ∧
    apiKeyAuth [] (fun _ _ => false) "key1" "s"
      = .denied ⟨401, false, "Invalid API credentials", "API key not found"⟩ ∧
    apiKeyAuth [sampleClient] (fun _ _ => false) "key1" "s"
      ≠ apiKeyAuth [] (fun _ _ => false) "key1" "s" := by
  refine ⟨rfl, rfl, ?_⟩
  decide

/-- Claim C1 as amended: for every non-empty key and secret, the
secret-mismatch response and the key-not-found response agree on the HTTP
status (401) and on the message field (Invalid API credentials) but differ
in the error field (API secret mismatch versus API key not found), so the
error detail does distinguish the two causes. -/
theorem claim_C1_amended_auth (store : List APIClient)
    (verify : String → String → Bool) (apiKey apiSecret : String)
    (hk : apiKey ≠ "") (hs : apiSecret ≠ "") :
    (findByAPIKey store apiKey = none →
      apiKeyAuth store verify apiKey apiSecret
        = .denied ⟨401, false, "Invalid API credentials", "API key not found"⟩) ∧
    (∀ c, findByAPIKey store apiKey = some c →
      verify c.apiSecret apiSecret = false →
      apiKeyAuth store verify apiKey apiSecret
        = .denied ⟨401, false, "Invalid API credentials", "API secret mismatch"⟩) ∧
    ("API key not found" : String) ≠ "API secret mismatch" := by
  refine ⟨?_, ?_, by decide⟩
  · intro hnone
    unfold apiKeyAuth
    rw [if_neg (by tauto), hnone]
  · intro c hc hv
    unfold apiKeyAuth
    rw [if_neg (by tauto), hc]
    simp [hv]

/-- Claim C1 witness: the amended statement applied at the sample store. -/
theorem claim_C1_witness :
    ("key1" : String) ≠ "" ∧ ("s" : String) ≠ "" ∧
    (findByAPIKey [sampleClient] "key1" = none →
      apiKeyAuth [sampleClient] (fun _ _ => false) "key1" "s"
        = .denied ⟨401, false, "Invalid API credentials", "API key not found"⟩) ∧
    (∀ c, findByAPIKey [sampleClient] "key1" = some c →
      (fun _ _ => false : String → String → Bool) c.apiSecret "s" = false →
      apiKeyAuth [sampleClient] (fun _ _ => false) "key1" "s"
        = .denied ⟨401, false, "Invalid API credentials", "API secret mismatch"⟩) ∧
    ("API key not found" : String) ≠ "API secret mismatch" := by
  refine ⟨by decide, by decide, ?_⟩
  exact claim_C1_amended_auth [sampleClient] (fun _ _ => false) "key1" "s"
    (by decide) (by decide)

/-! ## Delivery client (service/sms.go) -/

/-- SendSMS in service/sms.go after the HTTP exchange completed: the body
is decoded (decode abstracts json.Unmarshal into SMSProviderResponse); a
decode failure yields the single fallback outcome with status Failed and
the raw body as message, a decode success yields the single parsed
outcome.  Either way the service returns exactly one response. -/
def serviceResponses (decode : String → Option SMSProviderResponse)
    (body : String) : List SMSProviderResponse :=
  match decode body with
  | some r => [r]
  | none => [{ status := "Failed", message := body }]

/-! ## Send orchestrator (handlers/sms.go) -/

/-- The handler counts an outcome as success exactly when its status is
the literal string Success or the literal string success. -/
def isSuccessStatus (s : String) : Bool := s == "Success" || s == "success"

/-- Observable outcome of SendSingleSMS: HTTP status, response success
flag, the log rows created, the client row after the handler, whether
DB.Save ran on the client, and whether the provider was invoked. -/
structure SingleSendResult where
  httpStatus : Nat
  success : Bool
  logs : List SMSLog
  client : APIClient
  clientSaved : Bool
  providerCalled : Bool
deriving Repr, DecidableEq

/-- The log row SendSingleSMS builds after a completed provider call:
defaults sent/Success/SMS sent successfully, overridden from the first
response — a non-success status marks the row failed and captures the
provider status and message, a success status keeps Success and captures
the provider message. -/
def singleOkLog (clientID : Nat) (req : SMSRequest)
    (responses : List SMSProviderResponse) : SMSLog :=
  match responses with
  | [] =>
      { clientID := clientID, recipient := FormatPhone req.number,
        message := req.message, senderID := req.senderID,
        priority := req.priority, status := "sent",
        providerStatus := "Success",
        providerMessage := "SMS sent successfully", error := "" }
  | resp :: _ =>
      if isSuccessStatus resp.status then
        { clientID := clientID, recipient := FormatPhone req.number,
          message := req.message, senderID := req.senderID,
          priority := req.priority, status := "sent",
          providerStatus := "Success",
          providerMessage := resp.message, error := "" }
      else
        { clientID := clientID, recipient := FormatPhone req.number,
          message := req.message, senderID := req.senderID,
          priority := req.priority, status := "failed",
          providerStatus := resp.status,
          providerMessage := resp.message, error := resp.message }

/-- SendSingleSMS from handlers/sms.go, after JSON binding and the auth
middleware: validate the phone, call the provider (given here as an
Except: error is a transport failure, ok is the response list), log, and
update the client counters only when the entry is sent. -/
def sendSingleSMS (client : APIClient) (req : SMSRequest)
    (providerResult : Except String (List SMSProviderResponse)) :
    SingleSendResult :=
  if ValidatePhone req.number = false then
    { httpStatus := 400, success := false, logs := [], client := client,
      clientSaved := false, providerCalled := false }
  else
    match providerResult with
    | .error e =>
        { httpStatus := 500, success := false,
          logs := [{ clientID := client.id, recipient := req.number,
                     message := req.message, senderID := req.senderID,
                     priority := req.priority, status := "failed",
                     providerStatus := "error", providerMessage := "",
                     error := e }],
          client := client, clientSaved := false, providerCalled := true }
    | .ok responses =>
        let lg := singleOkLog client.id req responses
        if lg.status = "sent" then
          { httpStatus := 200, success := true, logs := [lg],
            client := { client with
                          dailyUsage := client.dailyUsage + 1,
                          monthlyUsage := client.monthlyUsage + 1 },
            clientSaved := true, providerCalled := true }
        else
          { httpStatus := 200, success := false, logs := [lg],
            client := client, clientSaved := false, providerCalled := true }

/-- Response chosen for message index i in the bulk loop: positional when
available, else the first response, else the Go zero value. -/
def pickResponse (responses : List SMSProviderResponse) (i : Nat) :
    SMSProviderResponse :=
  match responses.get? i with
  | some r => r
  | none =>
      match responses with
      | r :: _ => r
      | [] => { status := "", message := "" }

/-- The log row the bulk loop builds for one message: on success the
defaults sent/Success/SMS sent successfully stand; on failure the row is
failed with the provider status and message captured. -/
def bulkLog (clientID : Nat) (msg : SMSRequest)
    (resp : SMSProviderResponse) : SMSLog :=
  if isSuccessStatus resp.status then
    { clientID := clientID, recipient := FormatPhone msg.number,
      message := msg.message, senderID := msg.senderID,
      priority := msg.priority, status := "sent",
      providerStatus := "Success",
      providerMessage := "SMS sent successfully", error := "" }
  else
    { clientID := clientID, recipient := FormatPhone msg.number,
      message := msg.message, senderID := msg.senderID,
      priority := msg.priority, status := "failed",
      providerStatus := resp.status,
      providerMessage := resp.message, error := resp.message }

/-- The bulk loop over the indexed messages. -/
def bulkLogs (clientID : Nat) (responses : List SMSProviderResponse) :
    Nat → List SMSRequest → List SMSLog
  | _, [] => []
  | i, m :: rest =>
      bulkLog clientID m (pickResponse responses i)
        :: bulkLogs clientID responses (i + 1) rest

/-- Observable outcome of SendBulkSMS. -/
structure BulkSendResult where
  httpStatus : Nat
  success : Bool
  logs : List SMSLog
  client : APIClient
  clientSaved : Bool
  providerCalled : Bool
  total : Nat
  successful : Nat
  failed : Nat
  results : List (String × String)
deriving Repr, DecidableEq

/-- SendBulkSMS from handlers/sms.go, after JSON binding and the auth
middleware: validate every phone, pre-check the daily quota against the
batch size, call the provider once, log one row per message, and add the
sent count to both counters with a single save.  The aggregate-count
fields are only meaningful on the 200 path (the Go 4xx and 5xx replies do
not carry them). -/
def sendBulkSMS (client : APIClient) (msgs : List SMSRequest)
    (providerResult : Except String (List SMSProviderResponse)) :
    BulkSendResult :=
  if msgs.any (fun m => ! ValidatePhone m.number) then
    { httpStatus := 400, success := false, logs := [], client := client,
      clientSaved := false, providerCalled := false, total := 0,
      successful := 0, failed := 0, results := [] }
  else if client.dailyUsage + (msgs.length : Int) > client.dailyLimit then
    { httpStatus := 429, success := false, logs := [], client := client,
      clientSaved := false, providerCalled := false, total := 0,
      successful := 0, failed := 0, results := [] }
  else
    match providerResult with
    | .error _ =>
        { httpStatus := 500, success := false, logs := [], client := client,
          clientSaved := false, providerCalled := true, total := 0,
          successful := 0, failed := 0, results := [] }
    | .ok responses =>
        let entries := bulkLogs client.id responses 0 msgs
        let successCount := entries.countP (fun e => e.status == "sent")
        let failedCount := entries.countP (fun e => e.status == "failed")
        { httpStatus := 200, success := true, logs := entries,
          client := { client with
                        dailyUsage := client.dailyUsage + (successCount : Int),
                        monthlyUsage := client.monthlyUsage + (successCount : Int) },
          clientSaved := true, providerCalled := true,
          total := msgs.length, successful := successCount,
          failed := failedCount,
          results := entries.map (fun e => (e.recipient, e.status)) }

/-! ## Helper lemmas about the orchestrator -/

theorem bulkLog_status (clientID : Nat) (m : SMSRequest)
    (r : SMSProviderResponse) :
    (bulkLog clientID m r).status
      = (if isSuccessStatus r.status then "sent" else "failed") := by
  unfold bulkLog
  split <;> simp_all

theorem bulkLogs_length (clientID : Nat) (rs : List SMSProviderResponse) :
    ∀ (i : Nat) (msgs : List SMSRequest),
      (bulkLogs clientID rs i msgs).length = msgs.length := by
  intro i msgs
  induction msgs generalizing i with
  | nil => rfl
  | cons m rest ih => simp [bulkLogs, ih]

theorem bulkLogs_count_sum (clientID : Nat) (rs : List SMSProviderResponse) :
    ∀ (i : Nat) (msgs : List SMSRequest),
      (bulkLogs clientID rs i msgs).countP (fun e => e.status == "sent")
        + (bulkLogs clientID rs i msgs).countP (fun e => e.status == "failed")
        = msgs.length := by
  intro i msgs
  induction msgs generalizing i with
  | nil => rfl
  | cons m rest ih =>
    simp only [bulkLogs, List.countP_cons]
    rw [bulkLog_status]
    by_cases hs : isSuccessStatus (pickResponse rs i).status = true
    · rw [if_pos hs]
      simp only [show (("sent" : String) == "sent") = true from rfl,
        show (("sent" : String) == "failed") = false from rfl]
      simp [← ih (i + 1)]
      omega
    · rw [if_neg hs]
      simp only [show (("failed" : String) == "sent") = false from rfl,
        show (("failed" : String) == "failed") = true from rfl]
      simp [← ih (i + 1)]
      omega

theorem bulkLogs_all_sent (clientID : Nat) (rs : List SMSProviderResponse)
    (hall : ∀ k, isSuccessStatus (pickResponse rs k).status = true) :
    ∀ (i : Nat) (msgs : List SMSRequest),
      (bulkLogs clientID rs i msgs).countP (fun e => e.status == "sent")
        = msgs.length := by
  intro i msgs
  induction msgs generalizing i with
  | nil => rfl
  | cons m rest ih =>
    simp only [bulkLogs, List.countP_cons]
    rw [bulkLog_status, if_pos (hall i)]
    simp [ih (i + 1)]

theorem bulkLogs_all_failed (clientID : Nat) (rs : List SMSProviderResponse)
    (hall : ∀ k, isSuccessStatus (pickResponse rs k).status = false) :
    ∀ (i : Nat) (msgs : List SMSRequest),
      (bulkLogs clientID rs i msgs).countP (fun e => e.status == "failed")
        = msgs.length := by
  intro i msgs
  induction msgs generalizing i with
  | nil => rfl
  | cons m rest ih =>
    simp only [bulkLogs, List.countP_cons]
    rw [bulkLog_status, hall i]
    simp [ih (i + 1)]

theorem pickResponse_singleton (r : SMSProviderResponse) (k : Nat) :
    pickResponse [r] k = r := by
  cases k <;> rfl

theorem singleOkLog_status_eq (cid : Nat) (req : SMSRequest)
    (r : SMSProviderResponse) (rest : List SMSProviderResponse) :
    (singleOkLog cid req (r :: rest)).status
      = (if isSuccessStatus r.status then "sent" else "failed") := by
  cases hs : isSuccessStatus r.status <;> simp [singleOkLog, hs]

theorem sendSingleSMS_error_eq (client : APIClient) (req : SMSRequest)
    (e : String) (h : ValidatePhone req.number = true) :
    sendSingleSMS client req (.error e)
      = { httpStatus := 500, success := false,
          logs := [{ clientID := client.id, recipient := req.number,
                     message := req.message, senderID := req.senderID,
                     priority := req.priority, status := "failed",
                     providerStatus := "error", providerMessage := "",
                     error := e }],
          client := client, clientSaved := false, providerCalled := true } := by
  unfold sendSingleSMS
  rw [if_neg (by simp [h])]

theorem sendSingleSMS_ok_eq (client : APIClient) (req : SMSRequest)
    (responses : List SMSProviderResponse)
    (h : ValidatePhone req.number = true) :
    sendSingleSMS client req (.ok responses)
      = (if (singleOkLog client.id req responses).status = "sent" then
          { httpStatus := 200, success := true,
            logs := [singleOkLog client.id req responses],
            client := { client with
                          dailyUsage := client.dailyUsage + 1,
                          monthlyUsage := client.monthlyUsage + 1 },
            clientSaved := true, providerCalled := true }
        else
          { httpStatus := 200, success := false,
            logs := [singleOkLog client.id req responses],
            client := client, clientSaved := false,
            providerCalled := true }) := by
  unfold sendSingleSMS
  rw [if_neg (by simp [h])]

/-- A sample request with a valid phone number, used in concrete
instantiations. -/
def sampleReq : SMSRequest :=
  { number := "0701234567", message := "hello", senderID := "", priority := "" }

/-- Claim C2 counterexample: the status SUCCESS is a case-insensitive
match of success (its characters lowercase to success), yet the
single-send handler logs the entry as failed (the code compares against
the exact literals Success and success only). -/
theorem claim_C2_counterexample :
    "SUCCESS".toList.map Char.toLower = "success".toList ∧
    (sendSingleSMS sampleClient sampleReq
        (.ok [{ status := "SUCCESS", message := "ok" }])).logs.map SMSLog.status
      = ["failed"] ∧
    (sendSingleSMS sampleClient sampleReq
        (.ok [{ status := "Success", message := "ok" }])).logs.map SMSLog.status
      = ["sent"] := by
  refine ⟨by decide, ?_, ?_⟩ <;> rfl

/-- Claim C2 as amended: after a completed provider call, the entry is
marked failed exactly when the outcome status is neither the literal
Success nor the literal success (the comparison is exact, not
case-insensitive; SUCCESS is marked failed), in both the single path and
the bulk per-message classification. -/
theorem claim_C2_amended_classification (client : APIClient)
    (req : SMSRequest) (resp : SMSProviderResponse)
    (h : ValidatePhone req.number = true) :
    (sendSingleSMS client req (.ok [resp])).logs.map SMSLog.status
      = [if isSuccessStatus resp.status then "sent" else "failed"] ∧
    (bulkLog client.id req resp).status
      = (if isSuccessStatus resp.status then "sent" else "failed") := by
  refine ⟨?_, bulkLog_status client.id req resp⟩
  rw [sendSingleSMS_ok_eq client req [resp] h]
  cases hs : isSuccessStatus resp.status
  · have h1 : (singleOkLog client.id req [resp]).status = "failed" := by
      rw [singleOkLog_status_eq, hs]; simp
    rw [if_neg (by rw [h1]; exact (show ("failed" : String) ≠ "sent" by decide))]
    simp [h1, hs]
  · have h1 : (singleOkLog client.id req [resp]).status = "sent" := by
      rw [singleOkLog_status_eq, hs]; simp
    rw [if_pos h1]
    simp [h1, hs]

/-- Claim C2 witness: the amended classification at a concrete failed
outcome. -/
theorem claim_C2_witness :
    ValidatePhone sampleReq.number = true ∧
    ((sendSingleSMS sampleClient sampleReq
        (.ok [{ status := "Failed", message := "invalid number" }])).logs.map
          SMSLog.status
      = [if isSuccessStatus "Failed" then "sent" else "failed"] ∧
    (bulkLog sampleClient.id sampleReq
        { status := "Failed", message := "invalid number" }).status
      = (if isSuccessStatus "Failed" then "sent" else "failed")) :=
  ⟨by decide,
   claim_C2_amended_classification sampleClient sampleReq
     { status := "Failed", message := "invalid number" } (by decide)⟩

/-- Claim C4: a bulk request of validated messages whose size would push
the daily usage past the daily limit is rejected with 429 before the
provider is called, with no log entries, no counter change and no client
save. -/
theorem claim_C4_bulk_precheck (client : APIClient) (msgs : List SMSRequest)
    (pr : Except String (List SMSProviderResponse))
    (hv : ∀ m ∈ msgs, ValidatePhone m.number = true)
    (hq : client.dailyUsage + (msgs.length : Int) > client.dailyLimit) :
    (sendBulkSMS client msgs pr).httpStatus = 429 ∧
    (sendBulkSMS client msgs pr).logs = [] ∧
    (sendBulkSMS client msgs pr).client = client ∧
    (sendBulkSMS client msgs pr).clientSaved = false ∧
    (sendBulkSMS client msgs pr).providerCalled = false := by
  unfold sendBulkSMS
  rw [if_neg (by
      intro hh
      rw [List.any_eq_true] at hh
      rcases hh with ⟨m, hm, hmm⟩
      rw [hv m hm] at hmm
      exact Bool.noConfusion hmm),
    if_pos hq]
  exact ⟨rfl, rfl, rfl, rfl, rfl⟩

/-- A sample client two sends below its daily limit. -/
def quotaClient : APIClient :=
  { sampleClient with dailyLimit := 10, dailyUsage := 8 }

/-- Claim C4 witness: a 3-message bulk by a client at
dailyUsage = dailyLimit - 2 is rejected wholesale. -/
theorem claim_C4_witness :
    (∀ m ∈ [sampleReq, sampleReq, sampleReq], ValidatePhone m.number = true) ∧
    quotaClient.dailyUsage
        + (([sampleReq, sampleReq, sampleReq] : List SMSRequest).length : Int)
      > quotaClient.dailyLimit ∧
    ((sendBulkSMS quotaClient [sampleReq, sampleReq, sampleReq]
        (.ok [])).httpStatus = 429 ∧
     (sendBulkSMS quotaClient [sampleReq, sampleReq, sampleReq]
        (.ok [])).logs = [] ∧
     (sendBulkSMS quotaClient [sampleReq, sampleReq, sampleReq]
        (.ok [])).client = quotaClient ∧
     (sendBulkSMS quotaClient [sampleReq, sampleReq, sampleReq]
        (.ok [])).clientSaved = false ∧
     (sendBulkSMS quotaClient [sampleReq, sampleReq, sampleReq]
        (.ok [])).providerCalled = false) :=
  ⟨by decide, by decide,
   claim_C4_bulk_precheck quotaClient [sampleReq, sampleReq, sampleReq]
     (.ok []) (by decide) (by decide)⟩

/-- Claim C5: after validation, a single send creates exactly one log
entry, terminal sent or failed; both counters are incremented by exactly 1
and the client saved if and only if the entry is sent; a failed entry
(transport error or provider non-success) leaves the client row untouched
and unsaved. -/
theorem claim_C5_single_counters (client : APIClient) (req : SMSRequest)
    (pr : Except String (List SMSProviderResponse))
    (h : ValidatePhone req.number = true) :
    ∃ e, (sendSingleSMS client req pr).logs = [e] ∧
      (e.status = "sent" ∨ e.status = "failed") ∧
      (((sendSingleSMS client req pr).clientSaved = true ∧
        (sendSingleSMS client req pr).client.dailyUsage
          = client.dailyUsage + 1 ∧
        (sendSingleSMS client req pr).client.monthlyUsage
          = client.monthlyUsage + 1) ↔ e.status = "sent") ∧
      (e.status = "failed" →
        (sendSingleSMS client req pr).client = client ∧
        (sendSingleSMS client req pr).clientSaved = false) := by
  cases pr with
  | error e =>
      refine ⟨{ clientID := client.id, recipient := req.number,
                message := req.message, senderID := req.senderID,
                priority := req.priority, status := "failed",
                providerStatus := "error", providerMessage := "",
                error := e }, ?_, Or.inr rfl, ?_, fun _ => ?_⟩
      · rw [sendSingleSMS_error_eq client req e h]
      · rw [sendSingleSMS_error_eq client req e h]
        constructor
        · rintro ⟨hc, -⟩
          exact Bool.noConfusion hc
        · intro hh
          exact absurd hh (show ("failed" : String) ≠ "sent" by decide)
      · rw [sendSingleSMS_error_eq client req e h]
        exact ⟨rfl, rfl⟩
  | ok responses =>
      have hst : (singleOkLog client.id req responses).status = "sent"
          ∨ (singleOkLog client.id req responses).status = "failed" := by
        cases responses with
        | nil => left; rfl
        | cons r rest =>
            rw [singleOkLog_status_eq]
            cases hs : isSuccessStatus r.status
            · right; simp
            · left; simp
      rw [sendSingleSMS_ok_eq client req responses h]
      rcases hst with hs | hs
      · refine ⟨singleOkLog client.id req responses, ?_, Or.inl hs, ?_, ?_⟩
        · rw [if_pos hs]
        · rw [if_pos hs]
          simp [hs]
        · intro hf
          rw [hs] at hf
          exact absurd hf (show ("sent" : String) ≠ "failed" by decide)
      · have hne : (singleOkLog client.id req responses).status ≠ "sent" := by
          rw [hs]
          exact (show ("failed" : String) ≠ "sent" by decide)
        refine ⟨singleOkLog client.id req responses, ?_, Or.inr hs, ?_, ?_⟩
        · rw [if_neg hne]
        · rw [if_neg hne]
          constructor
          · rintro ⟨hc, -⟩
            exact Bool.noConfusion hc
          · intro hh
            exact absurd hh hne
        · intro _
          rw [if_neg hne]
          exact ⟨rfl, rfl⟩

/-- Claim C5 witness: a concrete failed provider outcome leaves the
counters unchanged, per the main theorem. -/
theorem claim_C5_witness :
    ValidatePhone sampleReq.number = true ∧
    (∃ e, (sendSingleSMS sampleClient sampleReq
            (.ok [{ status := "Failed", message := "invalid number" }])).logs
          = [e] ∧
      (e.status = "sent" ∨ e.status = "failed") ∧
      (((sendSingleSMS sampleClient sampleReq
            (.ok [{ status := "Failed", message := "invalid number" }])).clientSaved
            = true ∧
        (sendSingleSMS sampleClient sampleReq
            (.ok [{ status := "Failed", message := "invalid number" }])).client.dailyUsage
          = sampleClient.dailyUsage + 1 ∧
        (sendSingleSMS sampleClient sampleReq
            (.ok [{ status := "Failed", message := "invalid number" }])).client.monthlyUsage
          = sampleClient.monthlyUsage + 1) ↔ e.status = "sent") ∧
      (e.status = "failed" →
        (sendSingleSMS sampleClient sampleReq
            (.ok [{ status := "Failed", message := "invalid number" }])).client
          = sampleClient ∧
        (sendSingleSMS sampleClient sampleReq
            (.ok [{ status := "Failed", message := "invalid number" }])).clientSaved
          = false)) :=
  ⟨by decide,
   claim_C5_single_counters sampleClient sampleReq
     (.ok [{ status := "Failed", message := "invalid number" }]) (by decide)⟩

theorem sendBulkSMS_ok_eq (client : APIClient) (msgs : List SMSRequest)
    (responses : List SMSProviderResponse)
    (hv : ∀ m ∈ msgs, ValidatePhone m.number = true)
    (hq : ¬ client.dailyUsage + (msgs.length : Int) > client.dailyLimit) :
    sendBulkSMS client msgs (.ok responses)
      = { httpStatus := 200, success := true,
          logs := bulkLogs client.id responses 0 msgs,
          client := { client with
                        dailyUsage := client.dailyUsage
                          + (((bulkLogs client.id responses 0 msgs).countP
                               (fun e => e.status == "sent") : Nat) : Int),
                        monthlyUsage := client.monthlyUsage
                          + (((bulkLogs client.id responses 0 msgs).countP
                               (fun e => e.status == "sent") : Nat) : Int) },
          clientSaved := true, providerCalled := true,
          total := msgs.length,
          successful := (bulkLogs client.id responses 0 msgs).countP
            (fun e => e.status == "sent"),
          failed := (bulkLogs client.id responses 0 msgs).countP
            (fun e => e.status == "failed"),
          results := (bulkLogs client.id responses 0 msgs).map
            (fun e => (e.recipient, e.status)) } := by
  unfold sendBulkSMS
  rw [if_neg (by
      intro hh
      rw [List.any_eq_true] at hh
      rcases hh with ⟨m, hm, hmm⟩
      rw [hv m hm] at hmm
      exact Bool.noConfusion hmm),
    if_neg hq]

/-- Claim C6: a bulk send of N messages whose provider call completes
creates exactly one log entry per message, adds the sent-classified count
(not N) to both counters with a single save, and reports total = N and
successful + failed = N with one per-message result each. -/
theorem claim_C6_bulk_accounting (client : APIClient)
    (msgs : List SMSRequest) (responses : List SMSProviderResponse)
    (hv : ∀ m ∈ msgs, ValidatePhone m.number = true)
    (hq : client.dailyUsage + (msgs.length : Int) ≤ client.dailyLimit) :
    (sendBulkSMS client msgs (.ok responses)).httpStatus = 200 ∧
    (sendBulkSMS client msgs (.ok responses)).logs.length = msgs.length ∧
    (sendBulkSMS client msgs (.ok responses)).total = msgs.length ∧
    (sendBulkSMS client msgs (.ok responses)).successful
        + (sendBulkSMS client msgs (.ok responses)).failed = msgs.length ∧
    (sendBulkSMS client msgs (.ok responses)).results.length = msgs.length ∧
    (sendBulkSMS client msgs (.ok responses)).client.dailyUsage
      = client.dailyUsage
          + ((sendBulkSMS client msgs (.ok responses)).successful : Int) ∧
    (sendBulkSMS client msgs (.ok responses)).client.monthlyUsage
      = client.monthlyUsage
          + ((sendBulkSMS client msgs (.ok responses)).successful : Int) ∧
    (sendBulkSMS client msgs (.ok responses)).clientSaved = true := by
  rw [sendBulkSMS_ok_eq client msgs responses hv (not_lt.mpr hq)]
  refine ⟨rfl, bulkLogs_length client.id responses 0 msgs, rfl,
    bulkLogs_count_sum client.id responses 0 msgs, ?_, rfl, rfl, rfl⟩
  rw [List.length_map]
  exact bulkLogs_length client.id responses 0 msgs

/-- Claim C6 witness: a concrete 2-message bulk whose provider call
completes with a single failed outcome. -/
theorem claim_C6_witness :
    (∀ m ∈ [sampleReq, sampleReq], ValidatePhone m.number = true) ∧
    sampleClient.dailyUsage
        + (([sampleReq, sampleReq] : List SMSRequest).length : Int)
      ≤ sampleClient.dailyLimit ∧
    ((sendBulkSMS sampleClient [sampleReq, sampleReq]
        (.ok [{ status := "Failed", message := "x" }])).httpStatus = 200 ∧
     (sendBulkSMS sampleClient [sampleReq, sampleReq]
        (.ok [{ status := "Failed", message := "x" }])).logs.length = 2 ∧
     (sendBulkSMS sampleClient [sampleReq, sampleReq]
        (.ok [{ status := "Failed", message := "x" }])).total = 2 ∧
     (sendBulkSMS sampleClient [sampleReq, sampleReq]
        (.ok [{ status := "Failed", message := "x" }])).successful
       + (sendBulkSMS sampleClient [sampleReq, sampleReq]
            (.ok [{ status := "Failed", message := "x" }])).failed = 2 ∧
     (sendBulkSMS sampleClient [sampleReq, sampleReq]
        (.ok [{ status := "Failed", message := "x" }])).results.length = 2 ∧
     (sendBulkSMS sampleClient [sampleReq, sampleReq]
        (.ok [{ status := "Failed", message := "x" }])).client.dailyUsage
       = sampleClient.dailyUsage
           + ((sendBulkSMS sampleClient [sampleReq, sampleReq]
                (.ok [{ status := "Failed", message := "x" }])).successful : Int) ∧
     (sendBulkSMS sampleClient [sampleReq, sampleReq]
        (.ok [{ status := "Failed", message := "x" }])).client.monthlyUsage
       = sampleClient.monthlyUsage
           + ((sendBulkSMS sampleClient [sampleReq, sampleReq]
                (.ok [{ status := "Failed", message := "x" }])).successful : Int) ∧
     (sendBulkSMS sampleClient [sampleReq, sampleReq]
        (.ok [{ status := "Failed", message := "x" }])).clientSaved = true) :=
  ⟨by decide, by decide,
   claim_C6_bulk_accounting sampleClient [sampleReq, sampleReq]
     [{ status := "Failed", message := "x" }] (by decide) (by decide)⟩

/-- Claim C7: with the delivery client of service/sms.go (which returns a
single aggregate outcome whether or not the body decoded), every accepted
bulk send is classified uniformly: successful = N or failed = N, so a
mixed batch is unreachable. -/
theorem claim_C7_uniform_bulk_outcome (client : APIClient)
    (msgs : List SMSRequest)
    (decode : String → Option SMSProviderResponse) (body : String)
    (hv : ∀ m ∈ msgs, ValidatePhone m.number = true)
    (hq : client.dailyUsage + (msgs.length : Int) ≤ client.dailyLimit) :
    (sendBulkSMS client msgs (.ok (serviceResponses decode body))).successful
        = msgs.length ∨
    (sendBulkSMS client msgs (.ok (serviceResponses decode body))).failed
        = msgs.length := by
  obtain ⟨r, hr⟩ : ∃ r, serviceResponses decode body = [r] := by
    unfold serviceResponses
    cases decode body
    · exact ⟨_, rfl⟩
    · exact ⟨_, rfl⟩
  rw [hr, sendBulkSMS_ok_eq client msgs [r] hv (not_lt.mpr hq)]
  cases hs : isSuccessStatus r.status
  · right
    exact bulkLogs_all_failed client.id [r]
      (fun k => by rw [pickResponse_singleton]; exact hs) 0 msgs
  · left
    exact bulkLogs_all_sent client.id [r]
      (fun k => by rw [pickResponse_singleton]; exact hs) 0 msgs

/-- Claim C7 witness: a concrete 2-message bulk against a decoder that
never parses, so the fallback Failed outcome is replicated. -/
theorem claim_C7_witness :
    (∀ m ∈ [sampleReq, sampleReq], ValidatePhone m.number = true) ∧
    sampleClient.dailyUsage
        + (([sampleReq, sampleReq] : List SMSRequest).length : Int)
      ≤ sampleClient.dailyLimit ∧
    ((sendBulkSMS sampleClient [sampleReq, sampleReq]
        (.ok (serviceResponses (fun _ => none) "raw"))).successful = 2 ∨
     (sendBulkSMS sampleClient [sampleReq, sampleReq]
        (.ok (serviceResponses (fun _ => none) "raw"))).failed = 2) :=
  ⟨by decide, by decide,
   claim_C7_uniform_bulk_outcome sampleClient [sampleReq, sampleReq]
     (fun _ => none) "raw" (by decide) (by decide)⟩

/-- Claim C8: the bulk pre-check consults only the daily quota.  A batch
that fits the daily quota is accepted (200, provider called) regardless of
the monthly headroom; when every message is classified sent the monthly
counter grows by N, and since the auth gate only guarantees
monthlyUsage < monthlyLimit, the counter ends at most N - 1 past the
monthly limit. -/
theorem claim_C8_monthly_overrun (client : APIClient)
    (msgs : List SMSRequest) (responses : List SMSProviderResponse)
    (hv : ∀ m ∈ msgs, ValidatePhone m.number = true)
    (hm : client.monthlyUsage < client.monthlyLimit)
    (hq : client.dailyUsage + (msgs.length : Int) ≤ client.dailyLimit)
    (hall : ∀ k, isSuccessStatus (pickResponse responses k).status = true) :
    (sendBulkSMS client msgs (.ok responses)).httpStatus = 200 ∧
    (sendBulkSMS client msgs (.ok responses)).providerCalled = true ∧
    (sendBulkSMS client msgs (.ok responses)).client.monthlyUsage
      = client.monthlyUsage + (msgs.length : Int) ∧
    (sendBulkSMS client msgs (.ok responses)).client.monthlyUsage
        - client.monthlyLimit
      ≤ (msgs.length : Int) - 1 := by
  rw [sendBulkSMS_ok_eq client msgs responses hv (not_lt.mpr hq)]
  have hc : (bulkLogs client.id responses 0 msgs).countP
      (fun e => e.status == "sent") = msgs.length :=
    bulkLogs_all_sent client.id responses hall 0 msgs
  refine ⟨rfl, rfl, by rw [hc], ?_⟩
  show client.monthlyUsage
      + (((bulkLogs client.id responses 0 msgs).countP
           (fun e => e.status == "sent") : Nat) : Int)
      - client.monthlyLimit ≤ (msgs.length : Int) - 1
  rw [hc]
  omega

/-- A sample client one send below its monthly limit but with ample daily
headroom. -/
def monthlyEdgeClient : APIClient :=
  { sampleClient with
      monthlyLimit := 10, monthlyUsage := 9, dailyLimit := 100,
      dailyUsage := 0 }

/-- Claim C8 witness: a 3-message all-sent bulk by a client with monthly
headroom 1 is accepted and leaves the monthly counter 2 = N - 1 past its
limit. -/
theorem claim_C8_witness :
    (∀ m ∈ [sampleReq, sampleReq, sampleReq], ValidatePhone m.number = true) ∧
    monthlyEdgeClient.monthlyUsage < monthlyEdgeClient.monthlyLimit ∧
    monthlyEdgeClient.dailyUsage
        + (([sampleReq, sampleReq, sampleReq] : List SMSRequest).length : Int)
      ≤ monthlyEdgeClient.dailyLimit ∧
    monthlyEdgeClient.monthlyUsage
        + (([sampleReq, sampleReq, sampleReq] : List SMSRequest).length : Int)
      > monthlyEdgeClient.monthlyLimit ∧
    ((sendBulkSMS monthlyEdgeClient [sampleReq, sampleReq, sampleReq]
        (.ok [{ status := "Success", message := "ok" }])).httpStatus = 200 ∧
     (sendBulkSMS monthlyEdgeClient [sampleReq, sampleReq, sampleReq]
        (.ok [{ status := "Success", message := "ok" }])).providerCalled = true ∧
     (sendBulkSMS monthlyEdgeClient [sampleReq, sampleReq, sampleReq]
        (.ok [{ status := "Success", message := "ok" }])).client.monthlyUsage
       = monthlyEdgeClient.monthlyUsage + 3 ∧
     (sendBulkSMS monthlyEdgeClient [sampleReq, sampleReq, sampleReq]
        (.ok [{ status := "Success", message := "ok" }])).client.monthlyUsage
         - monthlyEdgeClient.monthlyLimit
       ≤ 3 - 1) :=
  ⟨by decide, by decide, by decide, by decide,
   claim_C8_monthly_overrun monthlyEdgeClient [sampleReq, sampleReq, sampleReq]
     [{ status := "Success", message := "ok" }] (by decide) (by decide)
     (by decide)
     (fun k => by rw [pickResponse_singleton]; rfl)⟩

/-! ## Admin usage reset (handlers/client.go) -/

/-- database.DB.Where("id = ?", clientID).First: first row with the
given primary key. -/
def findClient (store : List APIClient) (clientID : Nat) : Option APIClient :=
  store.find? (fun c => c.id == clientID)

/-- database.DB.Save: update the row with the saved record's primary
key. -/
def saveClient (store : List APIClient) (c : APIClient) : List APIClient :=
  store.map (fun x => if x.id == c.id then c else x)

/-- Outcome of ResetClientUsage: the HTTP status and the client table
afterwards. -/
structure ResetResult where
  httpStatus : Nat
  store : List APIClient
deriving Repr, DecidableEq

/-- ResetClientUsage from handlers/client.go: look the client up by id
(404 when absent), zero both usage counters, stamp lastReset with the
current time, and save. -/
def resetClientUsage (store : List APIClient) (clientID : Nat)
    (now : Int) : ResetResult :=
  match findClient store clientID with
  | none => { httpStatus := 404, store := store }
  | some c =>
      { httpStatus := 200,
        store := saveClient store
          { c with dailyUsage := 0, monthlyUsage := 0, lastReset := now } }

theorem find_saveClient (clientID : Nat) (c c' : APIClient)
    (hid : c'.id = c.id) :
    ∀ store : List APIClient,
      store.find? (fun x => x.id == clientID) = some c →
      (saveClient store c').find? (fun x => x.id == clientID) = some c' := by
  intro store
  induction store with
  | nil => intro hh; exact Option.noConfusion hh
  | cons a t ih =>
    intro hh
    have hcid : (c.id == clientID) = true := by
      have hh2 := List.find?_some hh
      exact hh2
    show List.find? (fun x => x.id == clientID)
        ((if a.id == c'.id then c' else a) :: saveClient t c') = some c'
    cases hpa : (a.id == clientID) with
    | true =>
        have hac : a = c := by
          have hstep : (a :: t).find? (fun x => x.id == clientID) = some a := by
            simp [List.find?_cons, hpa]
          rw [hstep] at hh
          exact Option.some.inj hh
        have hmap : (if a.id == c'.id then c' else a) = c' := by
          have hbeq : (a.id == c'.id) = true := by
            rw [hid, hac]
            simp
          rw [if_pos hbeq]
        rw [hmap]
        have hc'id : (c'.id == clientID) = true := by
          rw [hid]
          exact hcid
        simp [List.find?_cons, hc'id]
    | false =>
        have hh' : t.find? (fun x => x.id == clientID) = some c := by
          have hstep : (a :: t).find? (fun x => x.id == clientID)
              = t.find? (fun x => x.id == clientID) := by
            simp [List.find?_cons, hpa]
          rw [hstep] at hh
          exact hh
        have hmap : (if a.id == c'.id then c' else a) = a := by
          rw [if_neg]
          intro hh2
          rw [beq_iff_eq] at hh2
          rw [hh2, hid] at hpa
          rw [hpa] at hcid
          exact Bool.noConfusion hcid
        rw [hmap]
        simp only [List.find?_cons, hpa]
        exact ih hh'

/-- Claim C10: resetting an existing client answers 200 and leaves the
client with both counters zero and lastReset at the reset instant, while
name, email, API key, stored secret hash, active flag and all three
limits are unchanged. -/
theorem claim_C10_reset_usage (store : List APIClient) (clientID : Nat)
    (now : Int) (c : APIClient)
    (hc : findClient store clientID = some c) :
    (resetClientUsage store clientID now).httpStatus = 200 ∧
    ∃ c', findClient (resetClientUsage store clientID now).store clientID
        = some c' ∧
      c'.dailyUsage = 0 ∧ c'.monthlyUsage = 0 ∧ c'.lastReset = now ∧
      c'.id = c.id ∧ c'.name = c.name ∧ c'.email = c.email ∧
      c'.apiKey = c.apiKey ∧ c'.apiSecret = c.apiSecret ∧
      c'.isActive = c.isActive ∧ c'.rateLimit = c.rateLimit ∧
      c'.dailyLimit = c.dailyLimit ∧ c'.monthlyLimit = c.monthlyLimit := by
  unfold resetClientUsage
  rw [hc]
  refine ⟨rfl, { c with
                   dailyUsage := 0, monthlyUsage := 0, lastReset := now },
    ?_, rfl, rfl, rfl, rfl, rfl, rfl, rfl, rfl, rfl, rfl, rfl, rfl⟩
  exact find_saveClient clientID c
    { c with dailyUsage := 0, monthlyUsage := 0, lastReset := now }
    rfl store hc

/-- A sample client sitting at both of its limits. -/
def maxedClient : APIClient :=
  { sampleClient with
      dailyLimit := 10, dailyUsage := 10, monthlyLimit := 20,
      monthlyUsage := 25 }

/-- Claim C10 witness: resetting the maxed-out sample client at instant 5. -/
theorem claim_C10_witness :
    findClient [maxedClient] 1 = some maxedClient ∧
    ((resetClientUsage [maxedClient] 1 5).httpStatus = 200 ∧
     ∃ c', findClient (resetClientUsage [maxedClient] 1 5).store 1
         = some c' ∧
       c'.dailyUsage = 0 ∧ c'.monthlyUsage = 0 ∧ c'.lastReset = 5 ∧
       c'.id = maxedClient.id ∧ c'.name = maxedClient.name ∧
       c'.email = maxedClient.email ∧ c'.apiKey = maxedClient.apiKey ∧
       c'.apiSecret = maxedClient.apiSecret ∧
       c'.isActive = maxedClient.isActive ∧
       c'.rateLimit = maxedClient.rateLimit ∧
       c'.dailyLimit = maxedClient.dailyLimit ∧
       c'.monthlyLimit = maxedClient.monthlyLimit) :=
  ⟨by decide, claim_C10_reset_usage [maxedClient] 1 5 maxedClient (by decide)⟩

end SmsGateway
